import Mathlib

/-!
Verification development for the Trace-Creator orchestrator
(`trace-creator.py`): a shallow embedding of its task-identity
derivation, remote host configuration, capture-process invocation,
local command runner, artifact collection and per-task orchestration,
together with theorems settling the specification claims.
-/

namespace TraceCreator

/-! ## Data model -/

/-- One remote pre-configuration step of a task (`configuration` list
entry): host address and the command to run there. -/
structure HostConfigEntry where
  ip : String
  command : String
deriving DecidableEq, Repr

/-- One task of the configuration file: `name`, `command`, optional
`filter` and optional `configuration` list. -/
structure Task where
  name : String
  command : String
  filter : Option String := none
  configuration : Option (List HostConfigEntry) := none
deriving DecidableEq, Repr

/-! ## Identity namer (`get_task_id`, lines 49-59) -/

/-- The characters removed by `get_task_id`'s regular expression
`[ @#$%^&*<>{}:|;\'\\\"/]` (line 59 of the source): space and
`@#$%^&*<>` and braces and `:|;` and quote, backslash, double quote,
slash. -/
def unsafeChars : List Char :=
  [' ', '@', '#', '$', '%', '^', '&', '*', '<', '>',
   Char.ofNat 123, Char.ofNat 125, ':', '|', ';',
   Char.ofNat 39, '\\', Char.ofNat 34, '/']

/-- One character of the `re.sub` replacement: an unsafe character
becomes an underscore, anything else is kept. -/
def sanitizeChar (c : Char) : Char :=
  if c ∈ unsafeChars then '_' else c

/-- The `re.sub(r'[ @#$%^&*<>{}:|;\'\\\"/]', r'_', task_id)` call of
line 59: every unsafe character of the string is replaced by an
underscore. -/
def sanitize (s : String) : String :=
  String.mk (s.data.map sanitizeChar)

/-- Python's slice `s[:n]`: the first `n` characters of the string. -/
def pySlice (s : String) (n : Nat) : String :=
  String.mk (s.data.take n)

/-- Python's `s.lower()`: each character lowercased. -/
def pyLower (s : String) : String :=
  String.mk (s.data.map Char.toLower)

/-- `get_task_id(task, timestamp)` (lines 49-59): format
`"{timestamp}-{name}"` with the task name truncated to its first 50
characters (`task["name"][:50]`) and lowercased (`.lower()`), then the
`re.sub` replacement applied to the whole formatted string. -/
def get_task_id (task : Task) (timestamp : String) : String :=
  sanitize (timestamp ++ "-" ++ pyLower (pySlice task.name 50))

/-! ## Capture process controller (`start_tshark`, lines 101-121) -/

/-- The capture file path built at line 112:
`capture_directory / '{filename}.pcang'` with the task id as filename.
The source spells the extension `pcang` even though the `-F` flag
requests the `pcapng` container format. -/
def capture_file_path (task : Task) (capture_directory timestamp : String) : String :=
  capture_directory ++ "/" ++ get_task_id task timestamp ++ ".pcang"

/-- The base tshark command of line 114:
`tshark -i {interface} -q -w {output_file} -F pcapng`. -/
def tshark_base_command (task : Task) (network_interface capture_directory timestamp : String) : String :=
  "tshark -i " ++ network_interface ++ " -q -w "
    ++ capture_file_path task capture_directory timestamp ++ " -F pcapng"

/-- The full tshark command of lines 114-117: the base command, with
` -f \"{filter}\"` appended when the task has a `filter` attribute. -/
def tshark_command (task : Task) (network_interface capture_directory timestamp : String) : String :=
  tshark_base_command task network_interface capture_directory timestamp
    ++ match task.filter with
       | some f => " -f \"" ++ f ++ "\""
       | none => ""

/-! ## Python runtime values, errors and the filesystem -/

/-- A Python runtime value as far as the embedded fragments care: a
text string (`str`) or a byte string (`bytes`, what
`process.communicate()` and paramiko's `read()` return). -/
inductive PyVal where
  | str (s : String)
  | bytes (b : List Nat)
deriving DecidableEq, Repr

/-- Python truthiness of a captured stream value (`if stdout:`): a
non-empty `str` or non-empty `bytes` is truthy. -/
def PyVal.isTruthy : PyVal → Bool
  | .str s => !s.isEmpty
  | .bytes b => !b.isEmpty

/-- The Python exceptions the embedded fragments can raise. -/
inductive PyErr where
  | typeError
  | nameError
deriving DecidableEq, Repr

/-- The relevant part of the filesystem: the set of created directories
and a map from file path to text content. -/
structure FS where
  dirs : List String
  files : List (String × String)
deriving DecidableEq, Repr

/-- Write (create or overwrite) the file at `path`. -/
def FS.writeFile (fs : FS) (path content : String) : FS :=
  { fs with files :=
      if fs.files.any fun p => p.1 == path then
        fs.files.map fun p => if p.1 == path then (path, content) else p
      else fs.files ++ [(path, content)] }

/-- The content of the file at `path`, when it exists. -/
def FS.readFile (fs : FS) (path : String) : Option String :=
  (fs.files.find? fun p => p.1 == path).map Prod.snd

/-- `if not directory.exists(): directory.mkdir()`. -/
def FS.mkdirIfAbsent (fs : FS) (path : String) : FS :=
  if path ∈ fs.dirs then fs else { fs with dirs := fs.dirs ++ [path] }

/-- `file.write(v)` for a file opened in text mode (`.open('w')`): a
`str` value is written as is, a `bytes` value raises `TypeError`. -/
def textModeWrite (v : PyVal) : Except PyErr String :=
  match v with
  | .str s => .ok s
  | .bytes _ => .error .typeError

/-! ## Remote host configurator (`host_configure`, lines 62-98) -/

/-- Line 84's `get_task_id(task, timestamp)` inside `host_configure`:
the name `task` is not a parameter of the function, so Python resolves
it as the module-global `task` left bound by the `for task in
configuration` loop of line 223; when no such global is bound the
lookup raises `NameError`. -/
def host_artifact_directory (globalTask : Option Task)
    (timestamp output_directory : String) : Except PyErr String :=
  match globalTask with
  | none => .error .nameError
  | some t => .ok (output_directory ++ "/" ++ get_task_id t timestamp)

/-- `host_configure` (lines 62-98) after the remote streams were read:
when either stream is truthy, the per-task directory (named through the
global `task`, line 84) is created if absent, `{host}.log` receives the
stdout value (line 90), and — as line 95 is written — `{host}.err` also
receives the STDOUT value, both through text-mode writes. The `Bool` of
the result records that `ssh_client.close()` (line 98) ran; an
exception propagates before it, carrying the filesystem state at the
raise point. -/
def host_configure (globalTask : Option Task) (host : String)
    (stdout stderr : PyVal) (timestamp output_directory : String)
    (fs : FS) : Except (PyErr × FS) (FS × Bool) := do
  if stdout.isTruthy || stderr.isTruthy then
    match host_artifact_directory globalTask timestamp output_directory with
    | .error e => .error (e, fs)
    | .ok directory_name =>
      let fs1 := fs.mkdirIfAbsent directory_name
      let fs2 ← if stdout.isTruthy then
          match textModeWrite stdout with
          | .error e => Except.error (e, fs1)
          | .ok s => pure (fs1.writeFile (directory_name ++ "/" ++ host ++ ".log") s)
        else pure fs1
      let fs3 ← if stderr.isTruthy then
          match textModeWrite stdout with
          | .error e => Except.error (e, fs2)
          | .ok s => pure (fs2.writeFile (directory_name ++ "/" ++ host ++ ".err") s)
        else pure fs2
      pure (fs3, true)
  else
    pure (fs, true)

/-! ## Local command runner (`run_command`, lines 124-147) -/

/-- `run_command` (lines 124-147) after `process.communicate()`
returned the captured streams: `{task_id}.log` receives stdout when
truthy and `{task_id}.err` receives stderr when truthy, both directly
under the output directory, through text-mode writes; the command's
exit status is never consulted. An exception carries the filesystem
state at the raise point. -/
def run_command (task : Task) (timestamp output_directory : String)
    (stdout stderr : PyVal) (fs : FS) : Except (PyErr × FS) FS := do
  let fs1 ← if stdout.isTruthy then
      match textModeWrite stdout with
      | .error e => Except.error (e, fs)
      | .ok s => pure (fs.writeFile
          (output_directory ++ "/" ++ get_task_id task timestamp ++ ".log") s)
    else pure fs
  let fs2 ← if stderr.isTruthy then
      match textModeWrite stderr with
      | .error e => Except.error (e, fs1)
      | .ok s => pure (fs1.writeFile
          (output_directory ++ "/" ++ get_task_id task timestamp ++ ".err") s)
    else pure fs1
  pure fs2

/-! ## Artifact collector (`move_files`, lines 150-162) -/

/-- A directory entry: a file with byte content, or a directory that
`move_files` moves as a whole unit. -/
inductive FsEntry where
  | file (content : List Nat)
  | dir (entries : List (String × FsEntry))

/-- A directory listing: the named entries directly inside one
directory, as `source_directory.iterdir()` yields them. -/
abbrev Listing := List (String × FsEntry)

/-- The entry at name `n` of a listing, when present. -/
def fsLookup (l : Listing) (n : String) : Option FsEntry :=
  (l.find? fun p => p.1 == n).map Prod.snd

/-- `shutil.move(source, destination)` for destination path `n` inside
the destination listing: the destination path now holds the moved
entry, replacing what was there (the overwrite-on-move contract);
other entries are unchanged. -/
def shutil_move : Listing → String → FsEntry → Listing
  | [], n, e => [(n, e)]
  | p :: rest, n, e => if p.1 = n then (n, e) :: rest else p :: shutil_move rest n e

/-- `move_files` (lines 150-162): iterate the entries of the source
directory; an entry named `.` or `..` is skipped (left in place), every
other entry is `shutil.move`d to `destination_directory / item.name`.
The result is the pair (source listing afterwards, destination listing
afterwards). -/
def move_files : Listing → Listing → Listing × Listing
  | [], destination => ([], destination)
  | (n, e) :: rest, destination =>
    if n = "." ∨ n = ".." then
      let p := move_files rest destination
      ((n, e) :: p.1, p.2)
    else
      move_files rest (shutil_move destination n e)

/-! ## Orchestration order (`process_creator_task`, lines 165-188) -/

/-- One observable step of `process_creator_task`, in the order the
source performs them. -/
inductive Event where
  | configureHost (ip : String) (command : String)
  | startCapture
  | runLocalCommand
  | sleep (seconds : Nat)
  | stopCapture
  | collectArtifacts
deriving DecidableEq, Repr

/-- The sequence of steps `process_creator_task` performs for one task
(lines 174-188): optional per-host configuration in declared order,
then `start_tshark`, then `run_command` (which blocks until the local
command exits), then `time.sleep(args.delay)`, then
`tshark_process.terminate()`, then `move_files`. -/
def process_creator_task_trace (task : Task) (delay : Nat) : List Event :=
  ((task.configuration.getD []).map fun h => Event.configureHost h.ip h.command)
    ++ [Event.startCapture, Event.runLocalCommand, Event.sleep delay,
        Event.stopCapture, Event.collectArtifacts]

/-! ## Helper lemmas -/

theorem sanitize_append (a b : String) :
    sanitize (a ++ b) = sanitize a ++ sanitize b := by
  cases a with
  | mk la =>
    cases b with
    | mk lb =>
      show String.mk ((la ++ lb).map sanitizeChar)
        = String.mk (la.map sanitizeChar ++ lb.map sanitizeChar)
      exact congrArg String.mk (List.map_append sanitizeChar la lb)

theorem map_sanitizeChar_of_safe (l : List Char) (h : ∀ c ∈ l, c ∉ unsafeChars) :
    l.map sanitizeChar = l := by
  induction l with
  | nil => rfl
  | cons c t ih =>
    simp only [List.map_cons, List.cons.injEq]
    refine ⟨?_, ih fun d hd => h d (List.mem_cons_of_mem c hd)⟩
    simp only [sanitizeChar, if_neg (h c (List.mem_cons_self c t))]

theorem sanitize_of_safe (s : String) (h : ∀ c ∈ s.data, c ∉ unsafeChars) :
    sanitize s = s := by
  cases s with
  | mk l =>
    simp only [sanitize]
    congr 1
    exact map_sanitizeChar_of_safe l h

theorem mem_data_sanitize (c : Char) (s : String) (h : c ∈ (sanitize s).data) :
    c ∉ unsafeChars := by
  cases s with
  | mk l =>
    simp only [sanitize] at h
    obtain ⟨d, _, rfl⟩ := List.mem_map.mp h
    by_cases hd : d ∈ unsafeChars
    · simp only [sanitizeChar, if_pos hd]
      decide
    · simpa only [sanitizeChar, if_neg hd] using hd

theorem fsLookup_shutil_move_self (d : Listing) (n : String) (e : FsEntry) :
    fsLookup (shutil_move d n e) n = some e := by
  induction d with
  | nil => simp [shutil_move, fsLookup, List.find?]
  | cons p rest ih =>
    by_cases hp : p.1 = n
    · simp [shutil_move, if_pos hp, fsLookup, List.find?]
    · have hb : (p.1 == n) = false := beq_eq_false_iff_ne.mpr hp
      simpa [shutil_move, if_neg hp, fsLookup, List.find?, hb] using ih

theorem fsLookup_shutil_move_other (d : Listing) (n : String) (e : FsEntry)
    (m : String) (hm : m ≠ n) :
    fsLookup (shutil_move d n e) m = fsLookup d m := by
  have hnm : (n == m) = false := beq_eq_false_iff_ne.mpr (Ne.symm hm)
  induction d with
  | nil =>
    simp [shutil_move, fsLookup, List.find?, hnm]
  | cons p rest ih =>
    by_cases hp : p.1 = n
    · have hpb : (p.1 == m) = false := by
        rw [hp]
        exact hnm
      simp [shutil_move, if_pos hp, fsLookup, List.find?, hnm, hpb]
    · by_cases hpm : p.1 = m
      · have hpb : (p.1 == m) = true := beq_iff_eq.mpr hpm
        simp [shutil_move, if_neg hp, fsLookup, List.find?, hpb]
      · have hpb : (p.1 == m) = false := beq_eq_false_iff_ne.mpr hpm
        simpa [shutil_move, if_neg hp, fsLookup, List.find?, hpb] using ih

theorem move_files_untouched (src : Listing) :
    ∀ dst : Listing, ∀ m : String, m ∉ src.map Prod.fst →
      fsLookup (move_files src dst).2 m = fsLookup dst m := by
  induction src with
  | nil => intro dst m _; rfl
  | cons q rest ih =>
    intro dst m hm
    obtain ⟨n, e⟩ := q
    simp only [List.map_cons, List.mem_cons, not_or] at hm
    by_cases hskip : n = "." ∨ n = ".."
    · show fsLookup (move_files ((n, e) :: rest) dst).2 m = fsLookup dst m
      simp only [move_files, if_pos hskip]
      exact ih dst m hm.2
    · show fsLookup (move_files ((n, e) :: rest) dst).2 m = fsLookup dst m
      simp only [move_files, if_neg hskip]
      rw [ih (shutil_move dst n e) m hm.2]
      exact fsLookup_shutil_move_other dst n e m hm.1

theorem move_files_main (src : Listing) :
    ∀ dst : Listing,
      (∀ p ∈ src, p.1 ≠ "." ∧ p.1 ≠ "..") →
      (src.map Prod.fst).Nodup →
      (move_files src dst).1 = []
        ∧ ∀ n e, (n, e) ∈ src → fsLookup (move_files src dst).2 n = some e := by
  induction src with
  | nil =>
    intro dst _ _
    exact ⟨rfl, fun n e h => absurd h (List.not_mem_nil _)⟩
  | cons q rest ih =>
    intro dst hdot hnd
    obtain ⟨n, e⟩ := q
    have hq := hdot (n, e) (List.mem_cons_self _ _)
    have hskip : ¬(n = "." ∨ n = "..") := by
      rintro (h | h)
      · exact hq.1 h
      · exact hq.2 h
    have hnd' : (rest.map Prod.fst).Nodup := by
      simp only [List.map_cons, List.nodup_cons] at hnd
      exact hnd.2
    have hnmem : n ∉ rest.map Prod.fst := by
      simp only [List.map_cons, List.nodup_cons] at hnd
      exact hnd.1
    have hstep : move_files ((n, e) :: rest) dst
        = move_files rest (shutil_move dst n e) := by
      simp only [move_files, if_neg hskip]
    rw [hstep]
    obtain ⟨h1, h2⟩ := ih (shutil_move dst n e)
      (fun p hp => hdot p (List.mem_cons_of_mem _ hp)) hnd'
    refine ⟨h1, ?_⟩
    intro m e' hm
    rcases List.mem_cons.mp hm with hm | hm
    · obtain ⟨hm1, hm2⟩ := Prod.mk.inj hm
      subst hm1
      subst hm2
      rw [move_files_untouched rest (shutil_move dst m e') m hnmem]
      exact fsLookup_shutil_move_self dst m e'
    · exact h2 m e' hm

end TraceCreator

namespace TraceCreator

/-! ## Claim theorems -/

/-- C2 (counterexample): the identity is NOT always
`{timestamp}-{sanitized_name}` — the `re.sub` of line 59 runs over the
whole formatted string, so a timestamp containing an unsafe character
is sanitized too: for name `a` and timestamp `@` the code yields
`_-a`, not `@-a`. -/
theorem get_task_id_claim_counterexample :
    get_task_id ⟨"a", "a", none, none⟩ "@" = "_-a"
      ∧ get_task_id ⟨"a", "a", none, none⟩ "@"
          ≠ "@" ++ "-" ++ sanitize (pyLower (pySlice "a" 50)) := by
  decide

/-- C2 (amended): for every task and every timestamp containing no
unsafe character (as every `time.strftime("%Y-%m-%d_%H-%M-%S")` value
does), the identity equals `{timestamp}-{sanitized_name}` where the
name is truncated to its first 50 characters, lowercased, and has every
unsafe character replaced by an underscore; the derivation is
deterministic in name and timestamp, and its output contains no unsafe
character. -/
theorem get_task_id_spec (t : Task) (ts : String)
    (hts : ∀ c ∈ ts.data, c ∉ unsafeChars) :
    get_task_id t ts = ts ++ "-" ++ sanitize (pyLower (pySlice t.name 50))
      ∧ (∀ t' : Task, ∀ ts' : String, t.name = t'.name → ts = ts' →
          get_task_id t ts = get_task_id t' ts')
      ∧ (∀ c ∈ (get_task_id t ts).data, c ∉ unsafeChars) := by
  refine ⟨?_, ?_, ?_⟩
  · show sanitize (ts ++ "-" ++ pyLower (pySlice t.name 50)) = _
    rw [sanitize_append, sanitize_append, sanitize_of_safe ts hts]
    have h1 : sanitize "-" = "-" := by decide
    rw [h1]
  · intro t' ts' hn hts'
    simp only [get_task_id, hn, hts']
  · intro c hc
    exact mem_data_sanitize c _ hc

/-- C2 (witness): the amended statement evaluated for the task name
`Ping Test` and a concrete strftime-shaped timestamp. -/
theorem get_task_id_spec_witness :
    get_task_id ⟨"Ping Test", "ping -c1 localhost", none, none⟩ "2024-01-01_00-00-00"
      = "2024-01-01_00-00-00" ++ "-" ++ sanitize (pyLower (pySlice "Ping Test" 50)) :=
  (get_task_id_spec ⟨"Ping Test", "ping -c1 localhost", none, none⟩
    "2024-01-01_00-00-00" (by decide)).1

/-- C3: in every task's step sequence the capture start comes right
after the (possibly empty) host-configuration prefix, followed by the
blocking local command, then a sleep of exactly the configured delay,
then the capture termination request, and artifact collection last;
every step before the capture start is a host configuration. -/
theorem process_creator_task_order (t : Task) (d : Nat) :
    (process_creator_task_trace t d).drop
        (((t.configuration.getD []).map
          fun h => Event.configureHost h.ip h.command).length)
      = [Event.startCapture, Event.runLocalCommand, Event.sleep d,
         Event.stopCapture, Event.collectArtifacts]
      ∧ ∀ e ∈ (process_creator_task_trace t d).take
          (((t.configuration.getD []).map
            fun h => Event.configureHost h.ip h.command).length),
          ∃ ip cmd, e = Event.configureHost ip cmd := by
  constructor
  · exact List.drop_left _ _
  · intro e he
    rw [process_creator_task_trace, List.take_left] at he
    obtain ⟨h, _, rfl⟩ := List.mem_map.mp he
    exact ⟨h.ip, h.command, rfl⟩

/-- C5: evaluated for the end-to-end scenario task `Ping Test`, the
capture invocation uses quiet mode (`-q`), binds the given interface
(`-i enp0s8`), requests the pcapng container format (`-F pcapng`) and
writes to `workspace/{identity}.pcang` — the file extension is `pcang`,
not the `pcapng` the scenario expects, because of the typo at line 112. -/
theorem capture_invocation_ping_test :
    tshark_command ⟨"Ping Test", "ping -c1 localhost", none, none⟩
        "enp0s8" "/tmp/capture" "2024-01-01_00-00-00"
      = "tshark -i enp0s8 -q -w /tmp/capture/2024-01-01_00-00-00-ping_test.pcang -F pcapng"
      ∧ capture_file_path ⟨"Ping Test", "ping -c1 localhost", none, none⟩
          "/tmp/capture" "2024-01-01_00-00-00"
        ≠ "/tmp/capture/2024-01-01_00-00-00-ping_test.pcapng" := by
  decide

/-- C6: when the task has a `filter` attribute the capture invocation
is the base command with ` -f \"{filter}\"` appended — the filter
expression appears verbatim and unmodified; when the task has no
`filter` attribute the invocation is exactly the base command, which
carries no capture-filter argument. -/
theorem tshark_filter_passthrough (t : Task) (i w ts : String) :
    (∀ f, t.filter = some f →
        tshark_command t i w ts
          = tshark_base_command t i w ts ++ (" -f \"" ++ f ++ "\""))
      ∧ (t.filter = none →
        tshark_command t i w ts = tshark_base_command t i w ts) := by
  constructor
  · intro f hf
    simp only [tshark_command, hf]
  · intro hf
    simp only [tshark_command, hf]
    exact String.append_empty _

/-- C6 (witness): the pass-through evaluated for a task carrying the
filter `tcp port 80` and for a task without a filter. -/
theorem tshark_filter_passthrough_witness :
    tshark_command ⟨"t", "c", some "tcp port 80", none⟩ "eth0" "w" "ts"
      = tshark_base_command ⟨"t", "c", some "tcp port 80", none⟩ "eth0" "w" "ts"
          ++ (" -f \"" ++ "tcp port 80" ++ "\"")
      ∧ tshark_command ⟨"t", "c", none, none⟩ "eth0" "w" "ts"
        = tshark_base_command ⟨"t", "c", none, none⟩ "eth0" "w" "ts" :=
  ⟨(tshark_filter_passthrough ⟨"t", "c", some "tcp port 80", none⟩ "eth0" "w" "ts").1
      "tcp port 80" rfl,
   (tshark_filter_passthrough ⟨"t", "c", none, none⟩ "eth0" "w" "ts").2 rfl⟩

/-- C1: evaluated with captured streams treated as text (stdout `out`,
error stream `boom`), `host_configure` writes the STDOUT content into
the per-host `.err` file — line 95 passes `stdout`, not `stderr`, to
the error-file write, so the `.err` file never holds the error
stream's bytes. -/
theorem host_configure_err_gets_stdout :
    host_configure (some ⟨"t1", "cmd", none, none⟩) "10.0.0.2"
        (PyVal.str "out") (PyVal.str "boom") "2024-01-01_00-00-00" "/vagrant/capture"
        ⟨[], []⟩
      = Except.ok
          (⟨["/vagrant/capture/2024-01-01_00-00-00-t1"],
            [("/vagrant/capture/2024-01-01_00-00-00-t1/10.0.0.2.log", "out"),
             ("/vagrant/capture/2024-01-01_00-00-00-t1/10.0.0.2.err", "out")]⟩, true)
      ∧ ("out" : String) ≠ "boom" :=
  ⟨rfl, by decide⟩

/-- C4: when both captured remote streams are empty (falsy), the
configure step changes nothing on the filesystem — no directory and no
file is created — and the remote-shell session is still closed. -/
theorem host_configure_empty_output_frame (g : Option Task) (host ts dir : String)
    (stdout stderr : PyVal) (fs : FS)
    (ho : stdout.isTruthy = false) (he : stderr.isTruthy = false) :
    host_configure g host stdout stderr ts dir fs = Except.ok (fs, true) := by
  simp [host_configure, ho, he]
  rfl

/-- C4 (witness): the empty-output frame property evaluated for two
empty byte streams and an empty filesystem. -/
theorem host_configure_empty_output_frame_witness :
    host_configure none "10.0.0.2" (PyVal.bytes []) (PyVal.bytes []) "ts" "/out"
        ⟨[], []⟩
      = Except.ok (⟨[], []⟩, true) :=
  host_configure_empty_output_frame none "10.0.0.2" "ts" "/out"
    (PyVal.bytes []) (PyVal.bytes []) ⟨[], []⟩ rfl rfl

/-- C7: artifact collection moves every entry of the workspace listing
(files and directories as whole units) into the destination,
overwriting conflicting names; afterwards the workspace listing is
empty (the directory itself persists), the destination holds exactly
the entries the workspace held (same name, same content), and entries
not named in the workspace are untouched. The hypotheses record what
`iterdir` guarantees: no `.`/`..` pseudo-entries and no duplicate
names. -/
theorem move_files_spec (src dst : Listing)
    (hdot : ∀ p ∈ src, p.1 ≠ "." ∧ p.1 ≠ "..")
    (hnd : (src.map Prod.fst).Nodup) :
    (move_files src dst).1 = []
      ∧ (∀ n e, (n, e) ∈ src → fsLookup (move_files src dst).2 n = some e)
      ∧ (∀ m, m ∉ src.map Prod.fst →
          fsLookup (move_files src dst).2 m = fsLookup dst m) :=
  ⟨(move_files_main src dst hdot hnd).1,
   (move_files_main src dst hdot hnd).2,
   fun m hm => move_files_untouched src dst m hm⟩

/-- C7 (witness): collection evaluated for a workspace holding one
capture file and one per-host log directory, into an empty output
directory. -/
theorem move_files_spec_witness :
    (move_files [("a.pcang", FsEntry.file [1]), ("logs", FsEntry.dir [])] []).1 = []
      ∧ fsLookup (move_files [("a.pcang", FsEntry.file [1]), ("logs", FsEntry.dir [])] []).2
          "a.pcang" = some (FsEntry.file [1]) :=
  ⟨(move_files_spec [("a.pcang", FsEntry.file [1]), ("logs", FsEntry.dir [])] []
      (by decide) (by decide)).1,
   (move_files_spec [("a.pcang", FsEntry.file [1]), ("logs", FsEntry.dir [])] []
      (by decide) (by decide)).2.1 "a.pcang" (FsEntry.file [1]) (List.mem_cons_self _ _)⟩

/-- C8: evaluated for the scenario task with non-empty captured stdout
(the bytes of `pong`), `run_command` raises `TypeError` at the log
write of line 140 — the byte stream cannot be written to the text-mode
file — so no `{identity}.log` is produced and the error propagates. -/
theorem run_command_stdout_write_fails :
    run_command ⟨"Ping Test", "ping -c1 localhost", none, none⟩ "2024-01-01_00-00-00"
        "/vagrant/capture" (PyVal.bytes [112, 111, 110, 103]) (PyVal.bytes []) ⟨[], []⟩
      = Except.error (PyErr.typeError, ⟨[], []⟩) := rfl

/-- C9: the artifact directory name of line 84 is derived from the
module-global `task` (not from any parameter of `host_configure`):
without a bound global the lookup is a `NameError`, with a bound global
`g` the directory is `output_dir/{get_task_id g ts}`; consequently an
invocation outside the orchestrator loop with any non-empty output
fails with `NameError` instead of producing artifacts. -/
theorem host_configure_uses_global_task (g : Task) (host ts dir : String)
    (stdout stderr : PyVal) (fs : FS)
    (h : stdout.isTruthy = true ∨ stderr.isTruthy = true) :
    host_artifact_directory none ts dir = Except.error PyErr.nameError
      ∧ host_artifact_directory (some g) ts dir
          = Except.ok (dir ++ "/" ++ get_task_id g ts)
      ∧ host_configure none host stdout stderr ts dir fs
          = Except.error (PyErr.nameError, fs) := by
  refine ⟨rfl, rfl, ?_⟩
  have hb : (stdout.isTruthy || stderr.isTruthy) = true := by
    rcases h with h | h <;> simp [h]
  simp [host_configure, hb, host_artifact_directory]

/-- C9 (witness): the global-task dependence evaluated for a one-byte
stdout stream and no bound global task. -/
theorem host_configure_uses_global_task_witness :
    host_artifact_directory none "ts" "/out" = Except.error PyErr.nameError
      ∧ host_artifact_directory (some ⟨"t1", "cmd", none, none⟩) "ts" "/out"
          = Except.ok ("/out" ++ "/" ++ get_task_id ⟨"t1", "cmd", none, none⟩ "ts")
      ∧ host_configure none "10.0.0.2" (PyVal.bytes [111]) (PyVal.bytes []) "ts" "/out"
          ⟨[], []⟩
        = Except.error (PyErr.nameError, ⟨[], []⟩) :=
  host_configure_uses_global_task ⟨"t1", "cmd", none, none⟩ "10.0.0.2" "ts" "/out"
    (PyVal.bytes [111]) (PyVal.bytes []) ⟨[], []⟩ (Or.inl rfl)

/-- C10: whenever the local command's captured byte streams are not
both empty, `run_command` raises `TypeError` before writing anything;
likewise `host_configure` (with the global task bound) raises
`TypeError` on non-empty remote output, having created at most the
per-task directory but no file — so no non-empty log or error file is
ever successfully written and the exception propagates. -/
theorem bytes_write_type_error (t g : Task) (host ts dir : String)
    (bout berr : List Nat) (fs : FS)
    (h : bout ≠ [] ∨ berr ≠ []) :
    run_command t ts dir (PyVal.bytes bout) (PyVal.bytes berr) fs
        = Except.error (PyErr.typeError, fs)
      ∧ host_configure (some g) host (PyVal.bytes bout) (PyVal.bytes berr) ts dir fs
          = Except.error (PyErr.typeError,
              fs.mkdirIfAbsent (dir ++ "/" ++ get_task_id g ts))
      ∧ (fs.mkdirIfAbsent (dir ++ "/" ++ get_task_id g ts)).files = fs.files := by
  have hfiles : (fs.mkdirIfAbsent (dir ++ "/" ++ get_task_id g ts)).files = fs.files := by
    unfold FS.mkdirIfAbsent
    split <;> rfl
  rcases bout with _ | ⟨x, xs⟩
  · rcases berr with _ | ⟨y, ys⟩
    · rcases h with h | h
      · exact absurd rfl h
      · exact absurd rfl h
    · exact ⟨rfl, rfl, hfiles⟩
  · exact ⟨rfl, rfl, hfiles⟩

/-- C10 (witness): the type-error behavior evaluated for a one-byte
stdout stream, an empty filesystem and the task `t1`. -/
theorem bytes_write_type_error_witness :
    run_command ⟨"t1", "cmd", none, none⟩ "ts" "/out"
        (PyVal.bytes [111]) (PyVal.bytes []) ⟨[], []⟩
      = Except.error (PyErr.typeError, ⟨[], []⟩)
      ∧ host_configure (some ⟨"t1", "cmd", none, none⟩) "10.0.0.2"
          (PyVal.bytes [111]) (PyVal.bytes []) "ts" "/out" ⟨[], []⟩
        = Except.error (PyErr.typeError,
            FS.mkdirIfAbsent ⟨[], []⟩ ("/out" ++ "/" ++ get_task_id ⟨"t1", "cmd", none, none⟩ "ts"))
      ∧ (FS.mkdirIfAbsent ⟨[], []⟩
          ("/out" ++ "/" ++ get_task_id ⟨"t1", "cmd", none, none⟩ "ts")).files
        = (⟨[], []⟩ : FS).files :=
  bytes_write_type_error ⟨"t1", "cmd", none, none⟩ ⟨"t1", "cmd", none, none⟩
    "10.0.0.2" "ts" "/out" [111] [] ⟨[], []⟩ (Or.inl (by decide))

end TraceCreator
